import Mathlib

/-
Verification development for the capture-checker OBS filter plugin
(src/capture-checker.cpp).  The file shallowly embeds the watchdog loop
(thread_loop), the lifecycle controller (start_thread / end_thread) and the
producer callbacks (filter_video / filter_audio) as executable Lean
functions, and proves the spec claims about them.

Machine-integer conventions: every C++ uint64_t value is a Nat together
with the side condition that it is below 2^64; uint64_t subtraction, the
only place where wraparound can matter, is the explicit sub64 below.
-/

namespace CaptureChecker

/-- Modulus of the C++ uint64_t type, 2^64. -/
def u64 : Nat := 18446744073709551616

/-- Wrapping uint64_t subtraction a - b, for a b < u64. -/
def sub64 (a b : Nat) : Nat := (a + (u64 - b % u64)) % u64

/-- Model of obs_source_frame: the nanosecond timestamp plus an opaque
identifier standing for the pixel payload of the frame. -/
structure obs_source_frame where
  timestamp : Nat
  data : Nat
deriving DecidableEq, Repr, Inhabited

/-- Model of obs_audio_data: the nanosecond timestamp plus an opaque
identifier standing for the audio payload. -/
structure obs_audio_data where
  timestamp : Nat
  data : Nat
deriving DecidableEq, Repr, Inhabited

/-- The configuration fields of capture_checker_data read by the watchdog:
the three check-enable flags and the threshold in seconds
(source_enabled_time is uint16_t in the source; bounds appear as
hypotheses where they matter). -/
structure CheckerFlags where
  video_ts_check : Bool
  audio_ts_check : Bool
  source_enabled_check : Bool
  source_enabled_time : Nat
deriving DecidableEq, Repr

/-- The loop-local variables of thread_loop: the cached previous video and
audio timestamps, the previous visibility, and the timestamp of the last
active-to-inactive transition. -/
structure LoopState where
  frame_ts : Nat
  audio_ts : Nat
  prev_visible : Bool
  not_visible_since_ts : Nat
deriving DecidableEq, Repr

/-- Initial values of the thread_loop locals (lines 212-216). -/
def initLoopState : LoopState :=
  { frame_ts := 0, audio_ts := 0, prev_visible := false, not_visible_since_ts := 0 }

/-- What one iteration of thread_loop observes in the shared state:
filter->current_frame, filter->current_audio (null pointers are none) and
the obs_source_active(filter->source) result. -/
structure TickInput where
  current_frame : Option obs_source_frame
  current_audio : Option obs_audio_data
  source_active : Bool
deriving DecidableEq, Repr

/-- The three distinct alert call sites inside thread_loop.  The C++ alert
action is an undifferentiated play_alert_sound call; the tag records which
check fired it, one tag per call. -/
inductive CheckAlert where
  | StalledVideo
  | StalledAudio
  | HiddenTooLong
deriving DecidableEq, Repr

/-- Outcome of a single iteration of the while body of thread_loop:
skipped (current_frame is null: sleep and continue, state unchanged),
fault (current_frame is non-null but current_audio is null: the iteration
dereferences the null current_audio pointer, at line 231 when the audio
check is enabled and unconditionally at line 253), or a normal evaluation
yielding the updated locals and the alert calls made, in call order. -/
inductive TickResult where
  | skipped
  | fault
  | evaluated (st : LoopState) (alerts : List CheckAlert)
deriving DecidableEq, Repr

/-- Condition of the video timestamp check (line 224): the check is
enabled and the cached frame_ts minus the current frame timestamp is zero
in uint64_t arithmetic. -/
def videoFires (cfg : CheckerFlags) (st : LoopState) (fr : obs_source_frame) : Bool :=
  cfg.video_ts_check && decide (sub64 st.frame_ts fr.timestamp = 0)

/-- Condition of the audio timestamp check (line 231). -/
def audioFires (cfg : CheckerFlags) (st : LoopState) (au : obs_audio_data) : Bool :=
  cfg.audio_ts_check && decide (sub64 st.audio_ts au.timestamp = 0)

/-- Value of not_visible_since_ts after lines 238-239: rewritten to the
current frame timestamp exactly on an active-to-inactive transition. -/
def nextNvs (st : LoopState) (fr : obs_source_frame) (current_visible : Bool) : Nat :=
  if !current_visible && st.prev_visible then fr.timestamp
  else st.not_visible_since_ts

/-- Condition of the source enabled check (lines 241-243), evaluated
against the already updated not_visible_since_ts value nvs: the check is
enabled, the source is inactive, and the uint64_t difference between the
current frame timestamp and nvs strictly exceeds
1000000000 * source_enabled_time. -/
def hiddenFires (cfg : CheckerFlags) (fr : obs_source_frame) (current_visible : Bool)
    (nvs : Nat) : Bool :=
  cfg.source_enabled_check && !current_visible &&
    decide (1000000000 * cfg.source_enabled_time < sub64 fr.timestamp nvs)

/-- Alert calls made during one evaluated iteration, in source order:
video check, audio check, source enabled check, one call per firing
check. -/
def tickAlerts (cfg : CheckerFlags) (st : LoopState) (fr : obs_source_frame)
    (au : obs_audio_data) (current_visible : Bool) : List CheckAlert :=
  (if videoFires cfg st fr then [CheckAlert.StalledVideo] else []) ++
  (if audioFires cfg st au then [CheckAlert.StalledAudio] else []) ++
  (if hiddenFires cfg fr current_visible (nextNvs st fr current_visible)
   then [CheckAlert.HiddenTooLong] else [])

/-- Loop locals after one evaluated iteration (lines 238-239 and
250-253): visibility and both timestamp caches updated. -/
def tickNext (st : LoopState) (fr : obs_source_frame) (au : obs_audio_data)
    (current_visible : Bool) : LoopState :=
  { frame_ts := fr.timestamp, audio_ts := au.timestamp,
    prev_visible := current_visible,
    not_visible_since_ts := nextNvs st fr current_visible }

/-- One iteration of the while body of thread_loop (lines 218-255),
translated clause by clause from the source. -/
def thread_loop_tick (cfg : CheckerFlags) (st : LoopState) (inp : TickInput) :
    TickResult :=
  match inp.current_frame with
  | none => .skipped
  | some fr =>
    match inp.current_audio with
    | none => .fault
    | some au =>
      .evaluated (tickNext st fr au inp.source_active)
        (tickAlerts cfg st fr au inp.source_active)

/-- Alert calls of a sequence of iterations, one list per iteration.  A
skipped iteration makes no alert call; a faulting iteration crashes the
thread, so it and every later iteration contribute nothing. -/
def evalTicks (cfg : CheckerFlags) : LoopState → List TickInput → List (List CheckAlert)
  | _, [] => []
  | st, i :: rest =>
    match thread_loop_tick cfg st i with
    | .skipped => [] :: evalTicks cfg st rest
    | .fault => []
    | .evaluated st' as => as :: evalTicks cfg st' rest

/-- Loop locals after a sequence of iterations; none if some iteration
faulted. -/
def runState (cfg : CheckerFlags) : LoopState → List TickInput → Option LoopState
  | st, [] => some st
  | st, i :: rest =>
    match thread_loop_tick cfg st i with
    | .skipped => runState cfg st rest
    | .fault => none
    | .evaluated st' _ => runState cfg st' rest

/-- One pass of thread_loop through its while condition: the value of
filter->thread_active the loop reads at the top of the iteration, and what
the shared state holds during that iteration. -/
structure LoopCycle where
  thread_active : Bool
  input : TickInput
deriving DecidableEq, Repr

/-- The whole thread_loop (lines 218-255) over a schedule of cycles: at
each cycle the loop reads the run flag; if it is cleared the loop returns
immediately, otherwise it executes one iteration.  The result is every
alert call the thread makes, in order.  A faulting iteration crashes the
thread, ending the run. -/
def thread_loop_run (cfg : CheckerFlags) : LoopState → List LoopCycle → List CheckAlert
  | _, [] => []
  | st, c :: rest =>
    if c.thread_active then
      match thread_loop_tick cfg st c.input with
      | .skipped => thread_loop_run cfg st rest
      | .fault => []
      | .evaluated st' as => as ++ thread_loop_run cfg st' rest
    else []

/-- The fields of capture_checker_data touched by the lifecycle functions
and the producer callbacks.  live_tasks is a ghost field counting spawned,
not yet joined watchdog threads: std::thread(...) in start_thread adds
one, and the join in end_thread retires one (the joined thread does exit,
because thread_active was cleared first and the loop tests it at the top
of every iteration). -/
structure capture_checker_data where
  source : Option Nat
  current_frame : Option obs_source_frame
  current_audio : Option obs_audio_data
  thread_active : Bool
  live_tasks : Nat
deriving DecidableEq, Repr

/-- State of a freshly created filter (filter_create, lines 147-165:
bzalloc zeroes the struct and the nullptr fields are set explicitly). -/
def filter_create : capture_checker_data :=
  { source := none, current_frame := none, current_audio := none,
    thread_active := false, live_tasks := 0 }

/-- Model of start_thread (lines 102-111). enabled is the
obs_source_enabled(filter->context) result. -/
def start_thread (enabled : Bool) (f : capture_checker_data) : capture_checker_data :=
  if f.thread_active || !enabled then f
  else { f with thread_active := true, live_tasks := f.live_tasks + 1 }

/-- Model of end_thread (lines 113-126): no-op unless a thread is active;
otherwise clear the flag, join the thread, and null current_frame. -/
def end_thread (f : capture_checker_data) : capture_checker_data :=
  if !f.thread_active then f
  else { f with thread_active := false, live_tasks := f.live_tasks - 1,
                current_frame := none }

/-- First step of filter_video (lines 262-263): fetch the parent source
once. -/
def fv_source (f : capture_checker_data) (parent : Nat) : capture_checker_data :=
  if f.source = none then { f with source := some parent } else f

/-- Second step of filter_video (lines 265-266): opportunistic thread
start when not running, enabled and active. -/
def fv_start (f : capture_checker_data) (enabled active : Bool) : capture_checker_data :=
  if !f.thread_active && enabled && active then start_thread enabled f else f

/-- Third step of filter_video (lines 268-269): store the frame pointer
when none is stored yet or the timestamp changed. -/
def fv_store (f : capture_checker_data) (frame : obs_source_frame) : capture_checker_data :=
  match f.current_frame with
  | none => { f with current_frame := some frame }
  | some cf =>
    if frame.timestamp ≠ cf.timestamp then { f with current_frame := some frame }
    else f

/-- Model of filter_video (lines 258-272). parent is the
obs_filter_get_parent result, enabled the obs_source_enabled(context)
result, active the obs_source_active(source) result.  Returns the updated
filter state and the frame handed back to OBS. -/
def filter_video (f : capture_checker_data) (parent : Nat) (enabled active : Bool)
    (frame : obs_source_frame) : capture_checker_data × obs_source_frame :=
  (fv_store (fv_start (fv_source f parent) enabled active) frame, frame)

/-- Model of filter_audio (lines 274-281): store the pointer, return the
audio untouched. -/
def filter_audio (f : capture_checker_data) (audio : obs_audio_data) :
    capture_checker_data × obs_audio_data :=
  ({ f with current_audio := some audio }, audio)

/-- Lifecycle operations that can reach start_thread or end_thread: the
enable signal (filter_enabled, lines 128-136) and the opportunistic start
from a delivered frame (filter_video). -/
inductive LifeEvent where
  | start (enabled : Bool)
  | stop
  | frame (parent : Nat) (enabled active : Bool) (fr : obs_source_frame)
  | audio (au : obs_audio_data)
deriving DecidableEq, Repr

/-- Apply one lifecycle operation to the filter state. -/
def lifeStep (f : capture_checker_data) : LifeEvent → capture_checker_data
  | .start e => start_thread e f
  | .stop => end_thread f
  | .frame p e a fr => (filter_video f p e a fr).1
  | .audio au => (filter_audio f au).1

/-- Filter state after a sequence of lifecycle operations from creation. -/
def lifeRun (evs : List LifeEvent) : capture_checker_data :=
  evs.foldl lifeStep filter_create

/-- Exactly one live task when the flag is set, zero when it is not; in
particular never more than one live watchdog task. -/
def taskInv (f : capture_checker_data) : Prop :=
  f.live_tasks = if f.thread_active then 1 else 0

instance (f : capture_checker_data) : Decidable (taskInv f) := by
  unfold taskInv; infer_instance

/-- Observation of one evaluated tick: both shared pointers non-null. -/
structure ObsPoint where
  frame : obs_source_frame
  audio : obs_audio_data
  visible : Bool
deriving DecidableEq, Repr, Inhabited

/-- The TickInput an ObsPoint denotes. -/
def ObsPoint.toInput (p : ObsPoint) : TickInput :=
  { current_frame := some p.frame, current_audio := some p.audio,
    source_active := p.visible }

/-- The settings filter_defaults installs (lines 283-289): all three
checks on, threshold 5 seconds. -/
def filter_defaults : CheckerFlags :=
  { video_ts_check := true, audio_ts_check := true,
    source_enabled_check := true, source_enabled_time := 5 }

section ArithLemmas

theorem sub64_eq_zero_iff (a b : Nat) (ha : a < u64) (hb : b < u64) :
    sub64 a b = 0 ↔ a = b := by
  unfold sub64 u64 at *
  omega

theorem sub64_of_le (a b : Nat) (h : b ≤ a) (ha : a < u64) :
    sub64 a b = a - b := by
  unfold sub64 u64 at *
  omega

theorem sub64_self (a : Nat) : sub64 a a = 0 := by
  unfold sub64 u64 at *
  omega

theorem sub64_zero_right (a : Nat) (ha : a < u64) : sub64 a 0 = a := by
  unfold sub64 u64 at *
  omega

end ArithLemmas

section TickLemmas

theorem thread_loop_tick_point (cfg : CheckerFlags) (st : LoopState) (p : ObsPoint) :
    thread_loop_tick cfg st p.toInput =
      .evaluated (tickNext st p.frame p.audio p.visible)
        (tickAlerts cfg st p.frame p.audio p.visible) := rfl

theorem mem_tickAlerts_video (cfg : CheckerFlags) (st : LoopState)
    (fr : obs_source_frame) (au : obs_audio_data) (v : Bool) :
    CheckAlert.StalledVideo ∈ tickAlerts cfg st fr au v ↔ videoFires cfg st fr = true := by
  unfold tickAlerts
  cases hv : videoFires cfg st fr <;> cases ha : audioFires cfg st au <;>
    cases hh : hiddenFires cfg fr v (nextNvs st fr v) <;> simp

theorem mem_tickAlerts_audio (cfg : CheckerFlags) (st : LoopState)
    (fr : obs_source_frame) (au : obs_audio_data) (v : Bool) :
    CheckAlert.StalledAudio ∈ tickAlerts cfg st fr au v ↔ audioFires cfg st au = true := by
  unfold tickAlerts
  cases hv : videoFires cfg st fr <;> cases ha : audioFires cfg st au <;>
    cases hh : hiddenFires cfg fr v (nextNvs st fr v) <;> simp

theorem mem_tickAlerts_hidden (cfg : CheckerFlags) (st : LoopState)
    (fr : obs_source_frame) (au : obs_audio_data) (v : Bool) :
    CheckAlert.HiddenTooLong ∈ tickAlerts cfg st fr au v ↔
      hiddenFires cfg fr v (nextNvs st fr v) = true := by
  unfold tickAlerts
  cases hv : videoFires cfg st fr <;> cases ha : audioFires cfg st au <;>
    cases hh : hiddenFires cfg fr v (nextNvs st fr v) <;> simp

theorem evalTicks_point_cons (cfg : CheckerFlags) (st : LoopState) (p : ObsPoint)
    (rest : List TickInput) :
    evalTicks cfg st (p.toInput :: rest) =
      tickAlerts cfg st p.frame p.audio p.visible ::
        evalTicks cfg (tickNext st p.frame p.audio p.visible) rest := rfl

theorem runState_point_cons (cfg : CheckerFlags) (st : LoopState) (p : ObsPoint)
    (rest : List TickInput) :
    runState cfg st (p.toInput :: rest) =
      runState cfg (tickNext st p.frame p.audio p.visible) rest := rfl

theorem evalTicks_points_length (cfg : CheckerFlags) (st : LoopState)
    (ps : List ObsPoint) :
    (evalTicks cfg st (ps.map ObsPoint.toInput)).length = ps.length := by
  induction ps generalizing st with
  | nil => rfl
  | cons p rest ih =>
    simp only [List.map_cons, evalTicks_point_cons, List.length_cons]
    exact congrArg Nat.succ (ih _)

/-- While the source stays inactive and the stretch is entered with
prev_visible already false, the transition assignment never runs, so every
tick of the stretch evaluates the hidden check against the entering
not_visible_since_ts; the k-th tick raises HiddenTooLong exactly when the
check is enabled and the uint64_t difference between its frame timestamp
and that value exceeds the threshold product. -/
theorem hidden_mem_run (cfg : CheckerFlags) (st : LoopState) (ps : List ObsPoint)
    (hvis : ∀ p ∈ ps, p.visible = false) (hprev : st.prev_visible = false) (k : Nat) :
    CheckAlert.HiddenTooLong ∈ (evalTicks cfg st (ps.map ObsPoint.toInput)).getD k [] ↔
      (k < ps.length ∧ cfg.source_enabled_check = true ∧
        1000000000 * cfg.source_enabled_time <
          sub64 ((ps.getD k default).frame.timestamp) st.not_visible_since_ts) := by
  induction ps generalizing st k with
  | nil => simp [evalTicks]
  | cons p rest ih =>
    have hpv : p.visible = false := hvis p (by simp)
    have hrest : ∀ q ∈ rest, q.visible = false := fun q hq =>
      hvis q (List.mem_cons_of_mem _ hq)
    have hnvs : nextNvs st p.frame false = st.not_visible_since_ts := by
      simp [nextNvs, hprev]
    cases k with
    | zero =>
      simp only [List.map_cons, evalTicks_point_cons, List.getD_cons_zero]
      rw [mem_tickAlerts_hidden]
      simp [hiddenFires, hpv, hnvs]
    | succ k =>
      simp only [List.map_cons, evalTicks_point_cons, List.getD_cons_succ]
      have hprev' : (tickNext st p.frame p.audio p.visible).prev_visible = false := by
        simp [tickNext, hpv]
      have := ih (tickNext st p.frame p.audio p.visible) hrest hprev' k
      rw [this]
      simp [tickNext, hpv, hnvs]

end TickLemmas

section RunLemmas

/-- While the source stays inactive (entered with prev_visible false) the
run never faults and both not_visible_since_ts and prev_visible are
preserved to the end of the stretch. -/
theorem runState_inactive (cfg : CheckerFlags) (st : LoopState) (ps : List ObsPoint)
    (hvis : ∀ p ∈ ps, p.visible = false) (hprev : st.prev_visible = false) :
    ∃ st', runState cfg st (ps.map ObsPoint.toInput) = some st' ∧
      st'.not_visible_since_ts = st.not_visible_since_ts ∧
      st'.prev_visible = false := by
  induction ps generalizing st with
  | nil => exact ⟨st, rfl, rfl, hprev⟩
  | cons p rest ih =>
    have hpv : p.visible = false := hvis p (by simp)
    have hrest : ∀ q ∈ rest, q.visible = false := fun q hq =>
      hvis q (List.mem_cons_of_mem _ hq)
    have hprev' : (tickNext st p.frame p.audio p.visible).prev_visible = false := by
      simp [tickNext, hpv]
    obtain ⟨st', heq, hnvs, hpv'⟩ := ih (tickNext st p.frame p.audio p.visible) hrest hprev'
    refine ⟨st', ?_, ?_, hpv'⟩
    · rw [List.map_cons, runState_point_cons]
      exact heq
    · rw [hnvs]
      simp [tickNext, nextNvs, hpv, hprev]

/-- Once the loop reads a cleared run flag it returns: cycles scheduled
after the flag is cleared contribute no alert call. -/
theorem thread_loop_run_append_inactive (cfg : CheckerFlags) (st : LoopState)
    (xs ys : List LoopCycle) (h : ∀ c ∈ ys, c.thread_active = false) :
    thread_loop_run cfg st (xs ++ ys) = thread_loop_run cfg st xs := by
  induction xs generalizing st with
  | nil =>
    cases ys with
    | nil => rfl
    | cons c rest =>
      have hc : c.thread_active = false := h c (by simp)
      simp [thread_loop_run, hc]
  | cons c rest ih =>
    rw [List.cons_append]
    cases hc : c.thread_active with
    | false => simp [thread_loop_run, hc]
    | true =>
      simp only [thread_loop_run, hc, if_true]
      cases htick : thread_loop_tick cfg st c.input with
      | skipped => exact ih st
      | fault => rfl
      | evaluated st' as => dsimp only; rw [ih st']

end RunLemmas

section LifecycleLemmas

theorem taskInv_start_thread (en : Bool) (f : capture_checker_data) (h : taskInv f) :
    taskInv (start_thread en f) := by
  cases hf : f.thread_active <;> cases en <;> simp_all [taskInv, start_thread]

theorem taskInv_end_thread (f : capture_checker_data) (h : taskInv f) :
    taskInv (end_thread f) := by
  cases hf : f.thread_active <;> simp_all [taskInv, end_thread]

theorem taskInv_fv_source (f : capture_checker_data) (p : Nat) (h : taskInv f) :
    taskInv (fv_source f p) := by
  unfold fv_source
  split <;> exact h

theorem taskInv_fv_start (f : capture_checker_data) (en ac : Bool) (h : taskInv f) :
    taskInv (fv_start f en ac) := by
  unfold fv_start
  split
  · exact taskInv_start_thread en f h
  · exact h

theorem taskInv_fv_store (f : capture_checker_data) (fr : obs_source_frame)
    (h : taskInv f) : taskInv (fv_store f fr) := by
  unfold fv_store
  split
  · exact h
  · split <;> exact h

theorem taskInv_lifeStep (f : capture_checker_data) (e : LifeEvent) (h : taskInv f) :
    taskInv (lifeStep f e) := by
  cases e with
  | start en => exact taskInv_start_thread en f h
  | stop => exact taskInv_end_thread f h
  | frame p en ac fr =>
    exact taskInv_fv_store _ _ (taskInv_fv_start _ en ac (taskInv_fv_source f p h))
  | audio au => exact h

/-- The single-task invariant holds in every state reachable from
filter_create by lifecycle operations. -/
theorem taskInv_lifeRun (evs : List LifeEvent) : taskInv (lifeRun evs) := by
  unfold lifeRun
  have hstep : ∀ f, taskInv f → taskInv (evs.foldl lifeStep f) := by
    induction evs with
    | nil => exact fun f h => h
    | cons e rest ih => exact fun f h => ih _ (taskInv_lifeStep f e h)
  exact hstep filter_create rfl

end LifecycleLemmas

section InversionLemmas

/-- An iteration evaluates exactly when both shared pointers are non-null,
and then its outcome is tickNext / tickAlerts on the dereferenced
values. -/
theorem tick_evaluated_inv (cfg : CheckerFlags) (st : LoopState) (i : TickInput)
    (st' : LoopState) (as : List CheckAlert)
    (h : thread_loop_tick cfg st i = .evaluated st' as) :
    ∃ fr au, i.current_frame = some fr ∧ i.current_audio = some au ∧
      st' = tickNext st fr au i.source_active ∧
      as = tickAlerts cfg st fr au i.source_active := by
  rcases i with ⟨cf, ca, v⟩
  cases cf with
  | none => exact absurd h (by simp [thread_loop_tick])
  | some fr =>
    cases ca with
    | none => exact absurd h (by simp [thread_loop_tick])
    | some au =>
      have h' : TickResult.evaluated (tickNext st fr au v) (tickAlerts cfg st fr au v) =
          TickResult.evaluated st' as := h
      injection h' with h1 h2
      exact ⟨fr, au, rfl, rfl, h1.symm, h2.symm⟩

theorem fv_source_frame (f : capture_checker_data) (p : Nat) :
    (fv_source f p).current_frame = f.current_frame := by
  unfold fv_source
  split <;> rfl

theorem fv_start_frame (f : capture_checker_data) (en ac : Bool) :
    (fv_start f en ac).current_frame = f.current_frame := by
  unfold fv_start start_thread
  split
  · split <;> rfl
  · rfl

theorem fv_source_audio (f : capture_checker_data) (p : Nat) :
    (fv_source f p).current_audio = f.current_audio := by
  unfold fv_source
  split <;> rfl

theorem fv_start_audio (f : capture_checker_data) (en ac : Bool) :
    (fv_start f en ac).current_audio = f.current_audio := by
  unfold fv_start start_thread
  split
  · split <;> rfl
  · rfl

theorem fv_store_audio (f : capture_checker_data) (fr : obs_source_frame) :
    (fv_store f fr).current_audio = f.current_audio := by
  unfold fv_store
  split
  · rfl
  · split <;> rfl

end InversionLemmas

section PersistLemma

/-- A video timestamp that never changes across a stretch of evaluated
ticks, matching the cached frame_ts on entry, raises StalledVideo on every
tick of the stretch when the video check is enabled. -/
theorem stalled_video_persist (cfg : CheckerFlags) (hv : cfg.video_ts_check = true)
    (c : Nat) :
    ∀ (ps : List ObsPoint) (st : LoopState), st.frame_ts = c →
      (∀ p ∈ ps, p.frame.timestamp = c) →
      ∀ k, k < ps.length →
        CheckAlert.StalledVideo ∈ (evalTicks cfg st (ps.map ObsPoint.toInput)).getD k [] := by
  intro ps
  induction ps with
  | nil =>
    intro st hst hts k hk
    simp at hk
  | cons p rest ih =>
    intro st hst hts k hk
    have hp : p.frame.timestamp = c := hts p (by simp)
    have hrest : ∀ q ∈ rest, q.frame.timestamp = c := fun q hq =>
      hts q (List.mem_cons_of_mem _ hq)
    cases k with
    | zero =>
      simp only [List.map_cons, evalTicks_point_cons, List.getD_cons_zero]
      rw [mem_tickAlerts_video]
      simp [videoFires, hv, hst, hp, sub64_self]
    | succ k =>
      simp only [List.map_cons, evalTicks_point_cons, List.getD_cons_succ]
      exact ih (tickNext st p.frame p.audio p.visible) (by simp [tickNext, hp]) hrest k
        (by simpa using hk)

end PersistLemma

section Claims

/-- C1: the loop body skips a tick non-fatally only when
filter->current_frame is null; with the default settings, a tick on which
a video frame has been recorded but no audio sample ever has dereferences
the null filter->current_audio pointer (line 253, and line 231 with the
audio check enabled) and faults, contradicting the claim that absent
sample data always makes the tick a harmless skip. -/
theorem C1_absent_audio_faults :
    thread_loop_tick filter_defaults initLoopState
      { current_frame := none, current_audio := none, source_active := false } =
      TickResult.skipped ∧
    thread_loop_tick filter_defaults initLoopState
      { current_frame := none, current_audio := some { timestamp := 7, data := 0 },
        source_active := false } = TickResult.skipped ∧
    thread_loop_tick filter_defaults initLoopState
      { current_frame := some { timestamp := 5, data := 0 }, current_audio := none,
        source_active := true } = TickResult.fault :=
  ⟨rfl, rfl, rfl⟩

/-- C2 counterexample: threshold 1 second and an active-to-inactive
transition at video timestamp t0 = 0; the source stays inactive and the
next tick has video timestamp exactly t0 + 1 * 1e9 = 1000000000, so the
claim says HiddenTooLong fires there, yet the run raises no alert at any
tick, because line 242 demands the difference to strictly exceed the
threshold product. -/
theorem C2_counterexample :
    evalTicks
      { video_ts_check := false, audio_ts_check := false,
        source_enabled_check := true, source_enabled_time := 1 }
      initLoopState
      [ { current_frame := some { timestamp := 0, data := 0 },
          current_audio := some { timestamp := 0, data := 0 }, source_active := true },
        { current_frame := some { timestamp := 0, data := 1 },
          current_audio := some { timestamp := 1, data := 0 }, source_active := false },
        { current_frame := some { timestamp := 1000000000, data := 2 },
          current_audio := some { timestamp := 2, data := 0 }, source_active := false } ] =
      [[], [], []] ∧
    (0 + 1 * 1000000000 ≤ 1000000000) :=
  ⟨by decide, by norm_num⟩

/-- C2 as amended: with the hidden check enabled, after an
active-to-inactive transition at a tick with video timestamp t0 and while
the source stays inactive, HiddenTooLong does not fire on the transition
tick, and on the k-th later tick it fires exactly when that tick's video
timestamp strictly exceeds t0 + source_enabled_time * 1e9 (so the first
fire is at the earliest tick whose timestamp is strictly beyond the
threshold, not at timestamp-greater-or-equal as the claim stated). -/
theorem C2_hidden_fires_strictly_after (cfg : CheckerFlags)
    (hchk : cfg.source_enabled_check = true) (st : LoopState)
    (hprev : st.prev_visible = true) (p0 : ObsPoint) (h0 : p0.visible = false)
    (rest : List ObsPoint) (hvis : ∀ p ∈ rest, p.visible = false)
    (hts : ∀ p ∈ rest, p0.frame.timestamp ≤ p.frame.timestamp ∧ p.frame.timestamp < u64) :
    CheckAlert.HiddenTooLong ∉
      (evalTicks cfg st ((p0 :: rest).map ObsPoint.toInput)).getD 0 [] ∧
    ∀ k : Nat,
      (CheckAlert.HiddenTooLong ∈
        (evalTicks cfg st ((p0 :: rest).map ObsPoint.toInput)).getD (k + 1) [] ↔
      (k < rest.length ∧
        p0.frame.timestamp + 1000000000 * cfg.source_enabled_time <
          (rest.getD k default).frame.timestamp)) := by
  constructor
  · simp only [List.map_cons, evalTicks_point_cons, List.getD_cons_zero]
    rw [mem_tickAlerts_hidden]
    simp [hiddenFires, h0, nextNvs, hprev, sub64_self]
  · intro k
    have hst1prev : (tickNext st p0.frame p0.audio p0.visible).prev_visible = false := by
      simp [tickNext, h0]
    have hst1nvs : (tickNext st p0.frame p0.audio p0.visible).not_visible_since_ts =
        p0.frame.timestamp := by
      simp [tickNext, nextNvs, h0, hprev]
    simp only [List.map_cons, evalTicks_point_cons, List.getD_cons_succ]
    rw [hidden_mem_run cfg _ rest hvis hst1prev k, hst1nvs]
    by_cases hk : k < rest.length
    · have hmem : rest.getD k default ∈ rest := by
        rw [List.getD_eq_getElem rest default hk]
        exact List.getElem_mem hk
      obtain ⟨hle, hlt⟩ := hts _ hmem
      rw [sub64_of_le _ _ hle hlt]
      constructor
      · rintro ⟨-, -, hgt⟩
        exact ⟨hk, by omega⟩
      · rintro ⟨-, hgt⟩
        exact ⟨hk, hchk, by omega⟩
    · simp [hk]

/-- C2 amended-theorem witness: concrete instantiation with threshold 1,
transition at timestamp 0 and one later inactive tick at timestamp
1000000001, which strictly exceeds the threshold and fires. -/
theorem C2_witness :
    CheckAlert.HiddenTooLong ∉
      (evalTicks
        { video_ts_check := false, audio_ts_check := false,
          source_enabled_check := true, source_enabled_time := 1 }
        { frame_ts := 0, audio_ts := 0, prev_visible := true, not_visible_since_ts := 0 }
        (([ { frame := { timestamp := 0, data := 0 },
              audio := { timestamp := 0, data := 0 }, visible := false },
            { frame := { timestamp := 1000000001, data := 0 },
              audio := { timestamp := 0, data := 0 }, visible := false } ] :
          List ObsPoint).map ObsPoint.toInput)).getD 0 [] ∧
    (CheckAlert.HiddenTooLong ∈
      (evalTicks
        { video_ts_check := false, audio_ts_check := false,
          source_enabled_check := true, source_enabled_time := 1 }
        { frame_ts := 0, audio_ts := 0, prev_visible := true, not_visible_since_ts := 0 }
        (([ { frame := { timestamp := 0, data := 0 },
              audio := { timestamp := 0, data := 0 }, visible := false },
            { frame := { timestamp := 1000000001, data := 0 },
              audio := { timestamp := 0, data := 0 }, visible := false } ] :
          List ObsPoint).map ObsPoint.toInput)).getD 1 [] ↔
      (0 < ([ ( { frame := { timestamp := 1000000001, data := 0 },
                  audio := { timestamp := 0, data := 0 }, visible := false } :
                ObsPoint) ] : List ObsPoint).length ∧
        0 + 1000000000 * 1 <
          (([ ( { frame := { timestamp := 1000000001, data := 0 },
                  audio := { timestamp := 0, data := 0 }, visible := false } :
                ObsPoint) ] : List ObsPoint).getD 0 default).frame.timestamp)) := by
  have h := C2_hidden_fires_strictly_after
    { video_ts_check := false, audio_ts_check := false,
      source_enabled_check := true, source_enabled_time := 1 }
    rfl
    { frame_ts := 0, audio_ts := 0, prev_visible := true, not_visible_since_ts := 0 }
    rfl
    { frame := { timestamp := 0, data := 0 },
      audio := { timestamp := 0, data := 0 }, visible := false }
    rfl
    [ { frame := { timestamp := 1000000001, data := 0 },
        audio := { timestamp := 0, data := 0 }, visible := false } ]
    (by decide)
    (by decide)
  exact ⟨h.1, h.2 0⟩

/-- C3: with the video check enabled, across two consecutive evaluated
ticks the first tick caches its video and audio timestamps, and the
second tick raises StalledVideo exactly when its video timestamp equals
the first tick's. -/
theorem C3_stalled_video_consecutive (cfg : CheckerFlags)
    (hv : cfg.video_ts_check = true) (st st1 st2 : LoopState)
    (as1 as2 : List CheckAlert) (fr1 fr2 : obs_source_frame)
    (au1 au2 : obs_audio_data) (v1 v2 : Bool)
    (ht1 : fr1.timestamp < u64) (ht2 : fr2.timestamp < u64)
    (e1 : thread_loop_tick cfg st
      { current_frame := some fr1, current_audio := some au1, source_active := v1 } =
      .evaluated st1 as1)
    (e2 : thread_loop_tick cfg st1
      { current_frame := some fr2, current_audio := some au2, source_active := v2 } =
      .evaluated st2 as2) :
    st1.frame_ts = fr1.timestamp ∧ st1.audio_ts = au1.timestamp ∧
    (CheckAlert.StalledVideo ∈ as2 ↔ fr2.timestamp = fr1.timestamp) := by
  obtain ⟨fr1', au1', hf1, ha1, hst1, -⟩ := tick_evaluated_inv cfg st _ st1 as1 e1
  obtain ⟨fr2', au2', hf2, ha2, -, has2⟩ := tick_evaluated_inv cfg st1 _ st2 as2 e2
  injection hf1 with hf1
  injection ha1 with ha1
  injection hf2 with hf2
  injection ha2 with ha2
  subst hf1 ha1 hf2 ha2
  subst hst1 has2
  refine ⟨rfl, rfl, ?_⟩
  rw [mem_tickAlerts_video]
  simp only [videoFires, hv, Bool.true_and, decide_eq_true_eq]
  dsimp only [tickNext]
  rw [sub64_eq_zero_iff _ _ ht1 ht2]
  exact ⟨fun h => h.symm, fun h => h.symm⟩

/-- C3 witness: concrete stalled pair (timestamps 42 then 42) with the
default settings. -/
theorem C3_witness :
    ({ frame_ts := 42, audio_ts := 9, prev_visible := true,
       not_visible_since_ts := 0 } : LoopState).frame_ts = 42 ∧
    ({ frame_ts := 42, audio_ts := 9, prev_visible := true,
       not_visible_since_ts := 0 } : LoopState).audio_ts = 9 ∧
    (CheckAlert.StalledVideo ∈
        tickAlerts filter_defaults
          { frame_ts := 42, audio_ts := 9, prev_visible := true,
            not_visible_since_ts := 0 }
          { timestamp := 42, data := 1 } { timestamp := 10, data := 0 } true ↔
      (42 : Nat) = 42) := by
  exact C3_stalled_video_consecutive filter_defaults rfl
    initLoopState _ _ _ _
    { timestamp := 42, data := 0 } { timestamp := 42, data := 1 }
    { timestamp := 9, data := 0 } { timestamp := 10, data := 0 } true true
    (by decide) (by decide) rfl rfl

/-- C4: on an evaluated tick each check contributes exactly one separate
alert call when its condition holds and none otherwise (no coalescing:
the tick makes as many alert calls as checks fired); and with the video
check enabled a stall condition persisting over a whole stretch of
evaluated ticks raises StalledVideo on every tick of the stretch. -/
theorem C4_one_alert_per_firing_check :
    (∀ (cfg : CheckerFlags) (st : LoopState) (fr : obs_source_frame)
        (au : obs_audio_data) (v : Bool) (st' : LoopState) (as : List CheckAlert),
      thread_loop_tick cfg st
        { current_frame := some fr, current_audio := some au, source_active := v } =
        .evaluated st' as →
      (as.count CheckAlert.StalledVideo = if videoFires cfg st fr then 1 else 0) ∧
      (as.count CheckAlert.StalledAudio = if audioFires cfg st au then 1 else 0) ∧
      (as.count CheckAlert.HiddenTooLong =
        if hiddenFires cfg fr v (nextNvs st fr v) then 1 else 0) ∧
      as.length = (if videoFires cfg st fr then 1 else 0) +
        (if audioFires cfg st au then 1 else 0) +
        (if hiddenFires cfg fr v (nextNvs st fr v) then 1 else 0)) ∧
    (∀ (cfg : CheckerFlags) (c : Nat) (ps : List ObsPoint) (st : LoopState),
      cfg.video_ts_check = true → st.frame_ts = c →
      (∀ p ∈ ps, p.frame.timestamp = c) →
      ∀ k, k < ps.length →
        CheckAlert.StalledVideo ∈ (evalTicks cfg st (ps.map ObsPoint.toInput)).getD k []) := by
  constructor
  · intro cfg st fr au v st' as h
    obtain ⟨fr', au', hf, ha', hst, has⟩ := tick_evaluated_inv _ _ _ _ _ h
    injection hf with hf
    injection ha' with ha'
    subst hf ha'
    subst has
    cases hvf : videoFires cfg st fr <;> cases haf : audioFires cfg st au <;>
      cases hhf : hiddenFires cfg fr v (nextNvs st fr v) <;>
        simp [tickAlerts, hvf, haf, hhf]
  · intro cfg c ps st hv hst hts k hk
    exact stalled_video_persist cfg hv c ps st hst hts k hk

/-- C4 witness: with the default settings and identical video and audio
timestamps on a hidden source far past the threshold, all three checks
fire on one tick, producing three separate alert calls; and a two-tick
constant-timestamp stretch fires StalledVideo on both ticks. -/
theorem C4_witness :
    ((tickAlerts filter_defaults
        { frame_ts := 6000000000, audio_ts := 0, prev_visible := false,
          not_visible_since_ts := 0 }
        { timestamp := 6000000000, data := 0 } { timestamp := 0, data := 0 }
        false).count CheckAlert.StalledVideo =
      if videoFires filter_defaults
          { frame_ts := 6000000000, audio_ts := 0, prev_visible := false,
            not_visible_since_ts := 0 }
          { timestamp := 6000000000, data := 0 } then 1 else 0) ∧
    CheckAlert.StalledVideo ∈
      (evalTicks filter_defaults initLoopState
        (([ { frame := { timestamp := 0, data := 0 },
              audio := { timestamp := 1, data := 0 }, visible := true },
            { frame := { timestamp := 0, data := 0 },
              audio := { timestamp := 2, data := 0 }, visible := true } ] :
          List ObsPoint).map ObsPoint.toInput)).getD 1 [] := by
  constructor
  · exact (C4_one_alert_per_firing_check.1 filter_defaults
      { frame_ts := 6000000000, audio_ts := 0, prev_visible := false,
        not_visible_since_ts := 0 }
      { timestamp := 6000000000, data := 0 } { timestamp := 0, data := 0 }
      false _ _ rfl).1
  · exact C4_one_alert_per_firing_check.2 filter_defaults 0 _ initLoopState rfl rfl
      (by decide) 1 (by decide)

/-- C5: at most one live watchdog task in every state reachable from
filter_create by any sequence of lifecycle operations (the task count is
one exactly when the flag is set, zero otherwise); starting when already
running is a no-op and stopping when not running is a no-op. -/
theorem C5_single_live_task :
    (∀ evs : List LifeEvent, taskInv (lifeRun evs)) ∧
    (∀ (f : capture_checker_data) (en : Bool),
        f.thread_active = true → start_thread en f = f) ∧
    (∀ f : capture_checker_data, f.thread_active = false → end_thread f = f) := by
  refine ⟨taskInv_lifeRun, ?_, ?_⟩
  · intro f en h
    unfold start_thread
    simp [h]
  · intro f h
    unfold end_thread
    simp [h]

/-- C5 witness: two starts in a row keep exactly one live task; a start on
a running instance and a stop on a stopped instance are both identity. -/
theorem C5_witness :
    taskInv (lifeRun [LifeEvent.start true, LifeEvent.start true]) ∧
    start_thread true
      { source := none, current_frame := none, current_audio := none,
        thread_active := true, live_tasks := 1 } =
      { source := none, current_frame := none, current_audio := none,
        thread_active := true, live_tasks := 1 } ∧
    end_thread filter_create = filter_create := by
  exact ⟨C5_single_live_task.1 _, C5_single_live_task.2.1 _ true rfl,
    C5_single_live_task.2.2 filter_create rfl⟩

/-- C6: cycles scheduled after the run flag is cleared contribute no alert
call (the loop reads the flag at the top of the iteration and returns);
and after end_thread returns the flag is down and zero watchdog tasks
remain live, in every reachable state. -/
theorem C6_stop_then_silence :
    (∀ (cfg : CheckerFlags) (st : LoopState) (xs ys : List LoopCycle),
        (∀ c ∈ ys, c.thread_active = false) →
        thread_loop_run cfg st (xs ++ ys) = thread_loop_run cfg st xs) ∧
    (∀ evs : List LifeEvent,
        (end_thread (lifeRun evs)).thread_active = false ∧
        (end_thread (lifeRun evs)).live_tasks = 0) := by
  refine ⟨thread_loop_run_append_inactive, ?_⟩
  intro evs
  have h := taskInv_lifeRun evs
  unfold taskInv at h
  cases hact : (lifeRun evs).thread_active
  · rw [hact] at h
    simp only [if_neg Bool.false_ne_true] at h
    constructor
    · simp [end_thread, hact]
    · simp [end_thread, hact, h]
  · rw [hact] at h
    simp only [if_pos rfl] at h
    constructor
    · simp [end_thread, hact]
    · simp only [end_thread, hact, Bool.not_true]
      simp [h]

/-- C6 witness: one active cycle followed by cycles with the flag cleared
yields the same alerts as the active prefix alone; after a start and a
stop, no live task remains. -/
theorem C6_witness :
    thread_loop_run filter_defaults initLoopState
      ([ { thread_active := true,
           input := { current_frame := none, current_audio := none,
                      source_active := false } } ] ++
       [ { thread_active := false,
           input := { current_frame := some { timestamp := 1, data := 0 },
                      current_audio := some { timestamp := 1, data := 0 },
                      source_active := true } } ]) =
      thread_loop_run filter_defaults initLoopState
        [ { thread_active := true,
            input := { current_frame := none, current_audio := none,
                       source_active := false } } ] ∧
    ((end_thread (lifeRun [LifeEvent.start true])).thread_active = false ∧
      (end_thread (lifeRun [LifeEvent.start true])).live_tasks = 0) := by
  exact ⟨C6_stop_then_silence.1 filter_defaults initLoopState _ _ (by decide),
    C6_stop_then_silence.2 _⟩

/-- C7: on an evaluated tick the not-visible-since timestamp becomes the
current video timestamp exactly when the source was visible on the
previous tick and is not on this one, and is left as it was otherwise;
consequently over a whole stretch of ticks on which the source merely
stays inactive the value is never rewritten. -/
theorem C7_nvs_edge_triggered :
    (∀ (cfg : CheckerFlags) (st : LoopState) (fr : obs_source_frame)
        (au : obs_audio_data) (v : Bool) (st' : LoopState) (as : List CheckAlert),
      thread_loop_tick cfg st
        { current_frame := some fr, current_audio := some au, source_active := v } =
        .evaluated st' as →
      st'.not_visible_since_ts =
        if v = false ∧ st.prev_visible = true then fr.timestamp
        else st.not_visible_since_ts) ∧
    (∀ (cfg : CheckerFlags) (st : LoopState) (ps : List ObsPoint),
      (∀ p ∈ ps, p.visible = false) → st.prev_visible = false →
      ∃ st', runState cfg st (ps.map ObsPoint.toInput) = some st' ∧
        st'.not_visible_since_ts = st.not_visible_since_ts) := by
  constructor
  · intro cfg st fr au v st' as h
    obtain ⟨fr', au', hf, ha', hst, -⟩ := tick_evaluated_inv _ _ _ _ _ h
    injection hf with hf
    injection ha' with ha'
    subst hf ha'
    subst hst
    dsimp only [tickNext, nextNvs]
    cases v <;> cases hp : st.prev_visible <;> simp [hp]
  · intro cfg st ps hvis hprev
    obtain ⟨st', heq, hnvs, -⟩ := runState_inactive cfg st ps hvis hprev
    exact ⟨st', heq, hnvs⟩

/-- C7 witness: a transition tick rewrites the timestamp to the current
frame timestamp, and a stretch of two merely-inactive ticks leaves the
stored value 5 untouched. -/
theorem C7_witness :
    ((tickNext
        { frame_ts := 0, audio_ts := 0, prev_visible := true, not_visible_since_ts := 7 }
        { timestamp := 3, data := 0 } { timestamp := 0, data := 0 }
        false).not_visible_since_ts =
      if false = false ∧ true = true then 3 else 7) ∧
    (∃ st', runState filter_defaults
        { frame_ts := 0, audio_ts := 0, prev_visible := false, not_visible_since_ts := 5 }
        (([ { frame := { timestamp := 4, data := 0 },
              audio := { timestamp := 1, data := 0 }, visible := false },
            { frame := { timestamp := 9, data := 0 },
              audio := { timestamp := 2, data := 0 }, visible := false } ] :
          List ObsPoint).map ObsPoint.toInput) = some st' ∧
      st'.not_visible_since_ts = 5) := by
  exact ⟨C7_nvs_edge_triggered.1 filter_defaults
      { frame_ts := 0, audio_ts := 0, prev_visible := true, not_visible_since_ts := 7 }
      { timestamp := 3, data := 0 } { timestamp := 0, data := 0 } false _ _ rfl,
    C7_nvs_edge_triggered.2 filter_defaults
      { frame_ts := 0, audio_ts := 0, prev_visible := false, not_visible_since_ts := 5 }
      _ (by decide) rfl⟩

/-- C8: with the video timestamp check disabled, no run of the watchdog
loop ever raises StalledVideo, whatever the schedule of flags, frames and
timestamps. -/
theorem C8_video_disabled_never_fires (cfg : CheckerFlags)
    (hv : cfg.video_ts_check = false) (st : LoopState) (cycles : List LoopCycle) :
    CheckAlert.StalledVideo ∉ thread_loop_run cfg st cycles := by
  induction cycles generalizing st with
  | nil => simp [thread_loop_run]
  | cons c rest ih =>
    cases hc : c.thread_active
    · simp [thread_loop_run, hc]
    · cases htick : thread_loop_tick cfg st c.input with
      | skipped => simpa [thread_loop_run, hc, htick] using ih st
      | fault => simp [thread_loop_run, hc, htick]
      | evaluated st' as =>
        obtain ⟨fr, au, hf, ha', hst, has⟩ := tick_evaluated_inv _ _ _ _ _ htick
        simp only [thread_loop_run, hc, htick, if_true, List.mem_append]
        rintro (hmem | hmem)
        · rw [has, mem_tickAlerts_video] at hmem
          simp [videoFires, hv] at hmem
        · exact ih st' hmem

/-- C8 witness: a disabled video check stays silent even on a schedule
whose video timestamp repeats across evaluated ticks. -/
theorem C8_witness :
    CheckAlert.StalledVideo ∉
      thread_loop_run
        { video_ts_check := false, audio_ts_check := true,
          source_enabled_check := true, source_enabled_time := 5 }
        initLoopState
        [ { thread_active := true,
            input := { current_frame := some { timestamp := 0, data := 0 },
                       current_audio := some { timestamp := 1, data := 0 },
                       source_active := true } },
          { thread_active := true,
            input := { current_frame := some { timestamp := 0, data := 0 },
                       current_audio := some { timestamp := 2, data := 0 },
                       source_active := true } } ] :=
  C8_video_disabled_never_fires _ rfl _ _

/-- C9: when the source has never been visible since the task started,
prev_visible never rises, so no transition ever happens and
not_visible_since_ts keeps its initial value 0; with the check enabled,
HiddenTooLong then fires on exactly the evaluated ticks whose video
timestamp alone strictly exceeds source_enabled_time * 1e9 — no
visibility transition is needed for the alert. -/
theorem C9_fires_without_transition (cfg : CheckerFlags)
    (hchk : cfg.source_enabled_check = true) (ps : List ObsPoint)
    (hvis : ∀ p ∈ ps, p.visible = false)
    (hts : ∀ p ∈ ps, p.frame.timestamp < u64) :
    (∃ st', runState cfg initLoopState (ps.map ObsPoint.toInput) = some st' ∧
        st'.not_visible_since_ts = 0 ∧ st'.prev_visible = false) ∧
    (∀ k, CheckAlert.HiddenTooLong ∈
        (evalTicks cfg initLoopState (ps.map ObsPoint.toInput)).getD k [] ↔
      (k < ps.length ∧
        1000000000 * cfg.source_enabled_time < (ps.getD k default).frame.timestamp)) := by
  constructor
  · exact runState_inactive cfg initLoopState ps hvis rfl
  · intro k
    rw [hidden_mem_run cfg initLoopState ps hvis rfl k]
    by_cases hk : k < ps.length
    · have hmem : ps.getD k default ∈ ps := by
        rw [List.getD_eq_getElem ps default hk]
        exact List.getElem_mem hk
      rw [show initLoopState.not_visible_since_ts = 0 from rfl,
        sub64_zero_right _ (hts _ hmem)]
      exact ⟨fun h => ⟨h.1, h.2.2⟩, fun h => ⟨h.1, hchk, h.2⟩⟩
    · simp [hk]

/-- C9 witness: a source never seen active, threshold 5 s; the tick at
timestamp 5000000001 > 5e9 fires with not_visible_since_ts still 0. -/
theorem C9_witness :
    (∃ st', runState filter_defaults initLoopState
        (([ { frame := { timestamp := 5000000001, data := 0 },
              audio := { timestamp := 1, data := 0 }, visible := false } ] :
          List ObsPoint).map ObsPoint.toInput) = some st' ∧
      st'.not_visible_since_ts = 0 ∧ st'.prev_visible = false) ∧
    (CheckAlert.HiddenTooLong ∈
        (evalTicks filter_defaults initLoopState
          (([ { frame := { timestamp := 5000000001, data := 0 },
                audio := { timestamp := 1, data := 0 }, visible := false } ] :
            List ObsPoint).map ObsPoint.toInput)).getD 0 [] ↔
      (0 < ([ ( { frame := { timestamp := 5000000001, data := 0 },
                  audio := { timestamp := 1, data := 0 }, visible := false } :
                ObsPoint) ] : List ObsPoint).length ∧
        1000000000 * 5 <
          (([ ( { frame := { timestamp := 5000000001, data := 0 },
                  audio := { timestamp := 1, data := 0 }, visible := false } :
                ObsPoint) ] : List ObsPoint).getD 0 default).frame.timestamp)) := by
  have h := C9_fires_without_transition filter_defaults rfl
    [ { frame := { timestamp := 5000000001, data := 0 },
        audio := { timestamp := 1, data := 0 }, visible := false } ]
    (by decide) (by decide)
  exact ⟨h.1, h.2 0⟩

/-- C10: filter_video hands back exactly the frame it received and
filter_audio exactly the audio it received, with the payload untouched;
filter_audio changes nothing in the filter state except storing the audio
reference; filter_video never touches the stored audio, stores at most
the incoming frame reference itself, and leaves the stored frame in place
when the incoming timestamp equals the stored one. -/
theorem C10_callbacks_pass_through :
    (∀ (f : capture_checker_data) (p : Nat) (en ac : Bool) (fr : obs_source_frame),
        (filter_video f p en ac fr).2 = fr) ∧
    (∀ (f : capture_checker_data) (au : obs_audio_data),
        (filter_audio f au).2 = au ∧
        (filter_audio f au).1 = { f with current_audio := some au }) ∧
    (∀ (f : capture_checker_data) (p : Nat) (en ac : Bool)
        (fr cf : obs_source_frame),
        f.current_frame = some cf → fr.timestamp = cf.timestamp →
        ((filter_video f p en ac fr).1).current_frame = some cf) ∧
    (∀ (f : capture_checker_data) (p : Nat) (en ac : Bool) (fr : obs_source_frame),
        ((filter_video f p en ac fr).1).current_frame = some fr ∨
        ((filter_video f p en ac fr).1).current_frame = f.current_frame) ∧
    (∀ (f : capture_checker_data) (p : Nat) (en ac : Bool) (fr : obs_source_frame),
        ((filter_video f p en ac fr).1).current_audio = f.current_audio) := by
  refine ⟨fun f p en ac fr => rfl, fun f au => ⟨rfl, rfl⟩, ?_, ?_, ?_⟩
  · intro f p en ac fr cf hcf hts
    unfold filter_video
    have h1 : (fv_start (fv_source f p) en ac).current_frame = some cf := by
      rw [fv_start_frame, fv_source_frame, hcf]
    dsimp only
    unfold fv_store
    rw [h1]
    simp only [hts, ne_eq, not_true_eq_false, ite_false, if_neg]
    exact h1
  · intro f p en ac fr
    unfold filter_video
    have h1 : (fv_start (fv_source f p) en ac).current_frame = f.current_frame := by
      rw [fv_start_frame, fv_source_frame]
    dsimp only
    unfold fv_store
    cases hcf : (fv_start (fv_source f p) en ac).current_frame with
    | none => left; rfl
    | some cf =>
      by_cases hne : fr.timestamp ≠ cf.timestamp
      · left
        simp [hne]
      · right
        dsimp only
        rw [if_neg hne]
        exact h1
  · intro f p en ac fr
    unfold filter_video
    dsimp only
    rw [fv_store_audio, fv_start_audio, fv_source_audio]

/-- C10 witness: concrete filter state holding a frame with timestamp 11;
an incoming frame with the same timestamp is passed through and the store
is left as it was. -/
theorem C10_witness :
    (filter_video
      { source := some 1, current_frame := some { timestamp := 11, data := 3 },
        current_audio := none, thread_active := true, live_tasks := 1 }
      1 true true { timestamp := 11, data := 4 }).2 = { timestamp := 11, data := 4 } ∧
    ((filter_video
      { source := some 1, current_frame := some { timestamp := 11, data := 3 },
        current_audio := none, thread_active := true, live_tasks := 1 }
      1 true true { timestamp := 11, data := 4 }).1).current_frame =
      some { timestamp := 11, data := 3 } := by
  exact ⟨C10_callbacks_pass_through.1 _ 1 true true _,
    C10_callbacks_pass_through.2.2.1 _ 1 true true _ _ rfl rfl⟩

end Claims

end CaptureChecker
